import Mathlib

/-!
Shallow embedding of `src/codeflow_backend.py` (the Dartopia relay server).

The server's externally visible behaviour is captured as pure functions:

* Socket.IO handlers (`handle_connect`, `handle_send_message`,
  `handle_screen_sharing`) return the list of outbound emissions they
  perform.  Each emission records the event name, the payload (a Python
  dict, embedded as an association list of string keys and values; a key
  absent from the dict is simply absent from the list) and the optional
  `room=` argument of `socketio.emit` (`none` means no `room` was given,
  i.e. the emission is broadcast to every connected client).
* The external SDK calls (`genai.GenerativeModel(...).generate_content`,
  the text-to-speech client) are oracles packaged in an `Env` record;
  a call that raises is an `Except.error` carrying `str(e)`.
* The HTTP routes `/api/models` and `/api/switch_model` become functions
  of the provider's model list (itself an oracle outcome, since
  `genai.list_models()` may raise).

Python-specific semantics preserved in the embedding:

* `dict.get(key, default)` returns the default only when the key is
  absent; a key present with value `""` yields `""` (`Option.getD`).
* truthiness: `if system_instructions:` / `if screen_data:` /
  `if not matched_model:` treat `None` and the empty string as false.
* `needle in hay` on strings is substring containment (`strIn`), and the
  empty string is a substring of every string.
-/

/-- One outbound `socketio.emit(event, payload, room=?)` call.  `room = none`
means the `room=` keyword was not passed, so the event is broadcast to all
connected clients rather than addressed to a single connection. -/
structure Emit where
  event : String
  payload : List (String × String)
  room : Option String
deriving DecidableEq, Repr

/-- The external world: the generative-AI SDK, the text-to-speech client and
base64 encoding.  `generate model prompt temperature` embeds
`genai.GenerativeModel(model).generate_content(prompt, generation_config)`
followed by `.text`; `generateVision model instruction image` embeds the
vision call of `handle_screen_sharing`; `tts` embeds the body of a
`texttospeech.TextToSpeechClient` synthesis call returning audio bytes.
`ttsAvailable` is the module-level `TEXTTOSPEECH_AVAILABLE` flag set by the
`try: from google.cloud import texttospeech` import. -/
structure Env where
  generate : String → String → Rat → Except String String
  generateVision : String → String → String → Except String String
  ttsAvailable : Bool
  tts : String → Except String (List Nat)
  b64encode : List Nat → String

/-- Payload of a `send_message` event.  Each field is `none` when the key is
absent from the incoming dict. -/
structure SendMessageData where
  message : Option String
  model : Option String
  history : Option (List String)
  systemInstructions : Option String
  temperature : Option Rat
  enable_voice : Option Bool
deriving DecidableEq

/-- Payload of a `start_screen_sharing` event. -/
structure ScreenSharingData where
  screen_data : Option String
  model : Option String
deriving DecidableEq

/-- Python truthiness of an optional string: `None` and `""` are falsy. -/
def truthyStr : Option String → Bool
  | none => false
  | some s => !(s == "")

/-- Python substring containment on `List Char`: `needle in hay`. -/
def listInfixOf (needle : List Char) : List Char → Bool
  | [] => needle.isEmpty
  | c :: t => needle.isPrefixOf (c :: t) || listInfixOf needle t

/-- Python `needle in hay` for strings (case-sensitive substring test). -/
def strIn (needle hay : String) : Bool :=
  listInfixOf needle.data hay.data

/-- `message = data.get('message', '')` -/
def resolvedMessage (d : SendMessageData) : String := d.message.getD ""

/-- `model_name = data.get('model', 'gemini-pro')` -/
def resolvedModel (d : SendMessageData) : String := d.model.getD "gemini-pro"

/-- `system_instructions = data.get('systemInstructions', '')` -/
def resolvedSystem (d : SendMessageData) : String := d.systemInstructions.getD ""

/-- `temperature = data.get('temperature', 0.7)` -/
def resolvedTemp (d : SendMessageData) : Rat := d.temperature.getD (7 / 10)

/-- `enable_voice = data.get('enable_voice', False)` -/
def resolvedVoice (d : SendMessageData) : Bool := d.enable_voice.getD false

/-- `full_prompt = message`, replaced by
`f"{system_instructions}\n\nUser: {message}"` when `system_instructions`
is truthy. -/
def fullPrompt (d : SendMessageData) : String :=
  if resolvedSystem d ≠ "" then
    resolvedSystem d ++ "\n\nUser: " ++ resolvedMessage d
  else
    resolvedMessage d

/-- The module-level `text_to_speech` function: raises `ImportError` when the
library is unavailable, otherwise performs the synthesis call (any exception
of which propagates to the caller as `Except.error`). -/
def text_to_speech (env : Env) (text : String) : Except String (List Nat) :=
  if !env.ttsAvailable then
    .error "Google Cloud Text-to-Speech library not installed"
  else
    env.tts text

/-- `handle_connect`: logs, then
`socketio.emit('connection_status', {'status': 'connected', 'sid': request.sid})`
with no `room=` argument. -/
def handle_connect (sid : String) : List Emit :=
  [⟨"connection_status", [("status", "connected"), ("sid", sid)], none⟩]

/-- `handle_send_message`: the whole body is a `try`. On success the dict
`{'response': text, 'status': 'success'}` (optionally extended with `audio`
or `voice_error`) is emitted as `receive_message` with `room=request.sid`;
any exception is caught and emitted as `error` with `room=request.sid`. -/
def handle_send_message (env : Env) (sid : String) (d : SendMessageData) :
    List Emit :=
  match env.generate (resolvedModel d) (fullPrompt d) (resolvedTemp d) with
  | .error e => [⟨"error", [("error", e), ("status", "error")], some sid⟩]
  | .ok t =>
      let base := [("response", t), ("status", "success")]
      let payload :=
        if resolvedVoice d && env.ttsAvailable then
          match text_to_speech env t with
          | .ok audio => base ++ [("audio", env.b64encode audio)]
          | .error ve => base ++ [("voice_error", ve)]
        else base
      [⟨"receive_message", payload, some sid⟩]

/-- The fixed instruction prepended to the screenshot in
`handle_screen_sharing`. -/
def screenInstruction : String :=
  "Analyze this screenshot and provide helpful insights or answer any questions visible in the content:"

/-- `handle_screen_sharing`: when `screen_data` is truthy, the vision call's
text is emitted as `screen_sharing_response`; otherwise a status placeholder
is emitted; an exception is emitted as `error` with payload `{'error': e}`.
None of the three `socketio.emit` calls passes `room=`. -/
def handle_screen_sharing (env : Env) (_sid : String) (d : ScreenSharingData) :
    List Emit :=
  if truthyStr d.screen_data then
    match env.generateVision (d.model.getD "gemini-pro-vision") screenInstruction
        (d.screen_data.getD "") with
    | .ok t => [⟨"screen_sharing_response", [("response", t)], none⟩]
    | .error e => [⟨"error", [("error", e)], none⟩]
  else
    [⟨"screen_sharing_status",
      [("status", "Screen sharing started, waiting for data")], none⟩]

/-- One entry of `genai.list_models()`. -/
structure ProviderModel where
  name : String
  display_name : String
  description : String
  input_token_limit : Nat
  output_token_limit : Nat
  supported_generation_methods : List String
deriving DecidableEq

/-- One dict of the `model_list` built by `get_available_models`.  The dict
built by the code has exactly the six keys below; `preferred` embeds the
optional seventh key of the spec's Model Descriptor, which the code never
sets (`none` means the key is absent). -/
structure ModelDescriptor where
  name : String
  display_name : String
  description : String
  input_token_limit : Nat
  output_token_limit : Nat
  supported_generation_methods : List String
  preferred : Option Bool
deriving DecidableEq

/-- The dict comprehension body of `get_available_models`. -/
def toDescriptor (m : ProviderModel) : ModelDescriptor :=
  { name := m.name
    display_name := m.display_name
    description := m.description
    input_token_limit := m.input_token_limit
    output_token_limit := m.output_token_limit
    supported_generation_methods := m.supported_generation_methods
    preferred := none }

/-- `GET /api/models`: the comprehension keeps models with
`'generateContent' in model.supported_generation_methods` and maps each to a
descriptor dict; a raised exception becomes `({'error': e}, 500)`. -/
def get_available_models (fetch : Except String (List ProviderModel)) :
    Except (String × Nat) (List ModelDescriptor) :=
  match fetch with
  | .error e => .error (e, 500)
  | .ok models =>
      .ok ((models.filter
        (fun m => m.supported_generation_methods.contains "generateContent")).map
        toDescriptor)

/-- Outcome of `POST /api/switch_model`: HTTP 200 success, HTTP 400
not-found, or HTTP 500 upstream error. -/
inductive SwitchResult where
  | success (model : String)
  | notFound (message : String)
  | upstreamError (error : String)
deriving DecidableEq

/-- The 400 message of `switch_model`:
`f'Model {new_model} not found. Available models: {", ".join(model_names[:5])}...'` -/
def notFoundMessage (new_model : String) (model_names : List String) : String :=
  "Model " ++ new_model ++ " not found. Available models: " ++
    String.intercalate ", " (model_names.take 5) ++ "..."

/-- `POST /api/switch_model`.  `modelField` is `data.get('model')` presence
(`new_model = data.get('model', 'gemini-pro')`); `fetch` is the outcome of
`genai.list_models()` (an exception becomes the 500 branch).  The loop takes
the first provider name containing `new_model`; the test
`if not matched_model:` is Python truthiness, so a matched name equal to
`""` is also treated as not found. -/
def switch_model (modelField : Option String)
    (fetch : Except String (List String)) : SwitchResult :=
  let new_model := modelField.getD "gemini-pro"
  match fetch with
  | .error e => .upstreamError e
  | .ok model_names =>
      match model_names.find? (fun n => strIn new_model n) with
      | none => .notFound (notFoundMessage new_model model_names)
      | some m =>
          if m = "" then .notFound (notFoundMessage new_model model_names)
          else .success m

/-- Fixture: an environment whose completion call succeeds with `"hello"`,
whose vision call succeeds with `"analysis"`, whose text-to-speech library
is installed but whose synthesis call raises. -/
def envSynthFail : Env :=
  { generate := fun _ _ _ => .ok "hello"
    generateVision := fun _ _ _ => .ok "analysis"
    ttsAvailable := true
    tts := fun _ => .error "synthesis failed"
    b64encode := fun _ => "b64" }

/-- Fixture: like `envSynthFail` but the text-to-speech library is not
installed (`TEXTTOSPEECH_AVAILABLE = False`). -/
def envNoTTS : Env :=
  { envSynthFail with ttsAvailable := false }

/-- Fixture: like `envSynthFail` but the vision call raises. -/
def envVisionFail : Env :=
  { envSynthFail with generateVision := fun _ _ _ => .error "upstream failure" }

/-- Fixture: an environment whose completion call echoes the model name and
the prompt it received, so a theorem can observe what the handler passed to
the completion client. -/
def envEcho : Env :=
  { envSynthFail with generate := fun m p _ => .ok (m ++ "|" ++ p) }

/-- Fixture: a `send_message` payload with `enable_voice: true`. -/
def voiceReq : SendMessageData :=
  ⟨some "hi", some "gemini-pro", none, none, none, some true⟩

/-- Fixture: the request `{message: "hi", model: "", temperature: 0.7}` of
the spec's worked example — the `model` key is present but empty. -/
def emptyModelReq : SendMessageData :=
  ⟨some "hi", some "", none, none, some (7 / 10), none⟩

/-- Fixture: a provider entry that supports `generateContent`. -/
def sampleProviderModel : ProviderModel :=
  ⟨"models/gemini-2", "Gemini 2", "desc", 100, 50, ["generateContent"]⟩

/-- `strIn` with an empty needle is always true, exactly as Python's
`"" in s`. -/
theorem strIn_empty_needle (s : String) : strIn "" s = true := by
  cases s with
  | mk data => cases data <;> rfl

/-- `find?` over `l₁ ++ m :: l₂` returns `m` when the predicate rejects all
of `l₁` and accepts `m`. -/
theorem find?_append_first {α : Type} (p : α → Bool) (l₁ : List α) (m : α)
    (l₂ : List α) (h₁ : ∀ n ∈ l₁, p n = false) (hm : p m = true) :
    (l₁ ++ m :: l₂).find? p = some m := by
  induction l₁ with
  | nil => simp [List.find?, hm]
  | cons a t ih =>
      have ha : p a = false := h₁ a (by simp)
      simp only [List.cons_append, List.find?, ha]
      exact ih (fun n hn => h₁ n (by simp [hn]))

/-- With the always-true predicate `strIn ""`, `find?` returns the head of
the list. -/
theorem find?_strIn_empty_eq_head? (names : List String) :
    names.find? (fun n => strIn "" n) = names.head? := by
  cases names with
  | nil => rfl
  | cons a t => simp [List.find?, strIn_empty_needle]

/-- C1: every inbound `send_message` event produces exactly one outbound
event, addressed (via `room=request.sid`) only to the connection that sent
the request; the event is `receive_message` when the completion call
succeeds and `error` when it raises, so the exception never propagates —
the embedded handler is total and its failure branch is the caught-and-
reported one of the source's `except` block. -/
theorem send_message_single_targeted_reply (env : Env) (sid : String)
    (d : SendMessageData) :
    (handle_send_message env sid d).length = 1 ∧
    (handle_send_message env sid d).all (fun e => e.room == some sid) = true ∧
    (match env.generate (resolvedModel d) (fullPrompt d) (resolvedTemp d) with
     | .ok _ =>
        (handle_send_message env sid d).all
          (fun e => e.event == "receive_message") = true
     | .error _ =>
        (handle_send_message env sid d).all (fun e => e.event == "error") = true) := by
  cases hg : env.generate (resolvedModel d) (fullPrompt d) (resolvedTemp d) with
  | error e => simp [handle_send_message, hg]
  | ok t =>
      cases hv : resolvedVoice d && env.ttsAvailable with
      | false => simp [handle_send_message, hg, hv]
      | true =>
          cases ht : text_to_speech env t <;>
            simp [handle_send_message, hg, hv, ht]

/-- C2 counterexample: on connect the code emits a single event (not two);
it is `connection_status` with no `room=` argument, i.e. broadcast to every
connected client, not only to the connecting one; no `server_ready` signal
with a timestamp exists. Shown at the concrete sid `"abc"`. -/
theorem connect_counterexample :
    handle_connect "abc" =
      [⟨"connection_status", [("status", "connected"), ("sid", "abc")], none⟩] ∧
    (handle_connect "abc").length ≠ 2 ∧
    (handle_connect "abc").all (fun e => e.room == none) = true := by
  decide

/-- C2 amended: for every connect event, exactly one acknowledgment signal
is sent — `connection_status` carrying the status `"connected"` and the
connection's sid — and it is emitted without a `room=` argument, i.e.
broadcast to all connected clients rather than addressed to the connecting
connection; no second (`server_ready`/timestamp) signal is sent. -/
theorem connect_single_broadcast_ack (sid : String) :
    (handle_connect sid).length = 1 ∧
    (handle_connect sid).all (fun e => e.room == none) = true ∧
    handle_connect sid =
      [⟨"connection_status", [("status", "connected"), ("sid", sid)], none⟩] :=
  ⟨rfl, rfl, rfl⟩

/-- C3 counterexample: `get_available_models` never prepends a hardcoded
preferred descriptor.  With an empty provider list the output is empty, so
there is no descriptor at index 0 at all; with a one-entry provider list the
descriptor at index 0 is the provider's own entry and carries no
`preferred` key (embedded as `preferred = none`), not `preferred: true`. -/
theorem listmodels_counterexample :
    get_available_models (.ok []) = .ok [] ∧
    get_available_models (.ok [sampleProviderModel]) =
      .ok [⟨"models/gemini-2", "Gemini 2", "desc", 100, 50,
            ["generateContent"], none⟩] ∧
    (toDescriptor sampleProviderModel).preferred ≠ some true :=
  ⟨rfl, rfl, by decide⟩

/-- C3 amended: for every provider model list, `get_available_models` keeps
exactly the entries whose supported-generation-methods include
`generateContent` and maps each to a Model Descriptor; no hardcoded
preferred descriptor is prepended, and no descriptor in the output carries
a `preferred` flag. -/
theorem listmodels_filters_without_preferred (ms : List ProviderModel) :
    ∃ ds, get_available_models (.ok ms) = .ok ds ∧
      (∀ d ∈ ds, d.preferred = none) ∧
      (∀ d, d ∈ ds ↔ ∃ m ∈ ms,
        "generateContent" ∈ m.supported_generation_methods ∧
          d = toDescriptor m) := by
  refine ⟨_, rfl, ?_, ?_⟩
  · intro d hd
    rw [List.mem_map] at hd
    obtain ⟨m, _, rfl⟩ := hd
    rfl
  · intro d
    simp only [List.mem_map, List.mem_filter, List.elem_iff]
    constructor
    · rintro ⟨m, ⟨hm, hgen⟩, rfl⟩
      exact ⟨m, hm, hgen, rfl⟩
    · rintro ⟨m, hm, hgen, rfl⟩
      exact ⟨m, ⟨hm, hgen⟩, rfl⟩

/-- C4 counterexample: requesting the configured default `"gemini-pro"`
against an empty provider model list does not succeed — `switch_model` has
no special acceptance of the default and answers with the 400 not-found
error. -/
theorem switch_default_counterexample :
    switch_model (some "gemini-pro") (.ok []) =
      .notFound "Model gemini-pro not found. Available models: ..." := by
  decide

/-- C4 amended: `switch_model` gives the configured default `"gemini-pro"`
no special treatment — whenever no provider name contains it as a
substring (in particular when the provider list is empty), the request
fails with the not-found error, default or not. -/
theorem switch_default_no_special_case (names : List String)
    (h : ∀ n ∈ names, strIn "gemini-pro" n = false) :
    switch_model (some "gemini-pro") (.ok names) =
      .notFound (notFoundMessage "gemini-pro" names) := by
  have hn : names.find? (fun n => strIn "gemini-pro" n) = none := by
    rw [List.find?_eq_none]
    intro x hx
    simp [h x hx]
  simp [switch_model, hn]

/-- C4 witness: the amended theorem applied to the concrete provider list
`["claude-3"]`, none of whose names contains `"gemini-pro"`. -/
theorem switch_default_no_special_case_witness :
    switch_model (some "gemini-pro") (.ok ["claude-3"]) =
      .notFound (notFoundMessage "gemini-pro" ["claude-3"]) :=
  switch_default_no_special_case ["claude-3"] (by decide)

/-- C5 counterexample: with requested name `""` and provider list `[""]`,
the first (and only) provider name does contain the requested name as a
substring, so the claim requires success returning that name; but the
Python test `if not matched_model:` treats the matched empty string as
falsy, and the code answers not-found instead. -/
theorem switch_substring_counterexample :
    switch_model (some "") (.ok [""]) =
      .notFound "Model  not found. Available models: ..." ∧
    switch_model (some "") (.ok [""]) ≠ .success "" := by
  decide

/-- C5 amended: `switch_model` performs case-sensitive substring containment
matching of the requested name against each provider name in list order and
returns the first provider name that contains it — unless that first
containing name is the empty string, which the `if not matched_model:`
truthiness test treats as no match.  When no provider name contains the
requested name it fails with the not-found error whose message includes the
comma-join of the first five provider names (this happens whether or not
the requested name equals the default). -/
theorem switch_substring_matching (req : String) (names : List String) :
    (∀ l₁ m l₂, names = l₁ ++ m :: l₂ →
        (∀ n ∈ l₁, strIn req n = false) → strIn req m = true → m ≠ "" →
        switch_model (some req) (.ok names) = .success m) ∧
    ((∀ n ∈ names, strIn req n = false) →
        switch_model (some req) (.ok names) =
          .notFound ("Model " ++ req ++ " not found. Available models: " ++
            String.intercalate ", " (names.take 5) ++ "...")) := by
  constructor
  · rintro l₁ m l₂ rfl h₁ hm hne
    have hf : (l₁ ++ m :: l₂).find? (fun n => strIn req n) = some m :=
      find?_append_first _ _ _ _ h₁ hm
    simp [switch_model, hf, hne]
  · intro h
    have hn : names.find? (fun n => strIn req n) = none := by
      rw [List.find?_eq_none]
      intro x hx
      simp [h x hx]
    simp [switch_model, hn, notFoundMessage]

/-- C5 witness: both branches of the amended theorem at concrete inputs —
`"pro"` matches the second provider name `"gemini-pro"` after rejecting
`"alpha"`, and `"zzz"` matches nothing and yields the not-found message
listing the available names. -/
theorem switch_substring_matching_witness :
    switch_model (some "pro") (.ok ["alpha", "gemini-pro"]) =
      .success "gemini-pro" ∧
    switch_model (some "zzz") (.ok ["alpha"]) =
      .notFound "Model zzz not found. Available models: alpha..." :=
  ⟨(switch_substring_matching "pro" ["alpha", "gemini-pro"]).1
      ["alpha"] "gemini-pro" [] rfl (by decide) (by decide) (by decide),
   (switch_substring_matching "zzz" ["alpha"]).2 (by decide)⟩

/-- C6: for a `send_message` request with `enable_voice: true`, when text
generation succeeds with text `t` but the synthesis call raises with
message `ve`, the single emitted `receive_message` response still carries
the generated text with `status: 'success'`, additionally carries
`voice_error: ve`, and has no `audio` key. -/
theorem voice_failure_keeps_text (env : Env) (sid : String)
    (d : SendMessageData) (t ve : String)
    (hv : d.enable_voice = some true) (ha : env.ttsAvailable = true)
    (hg : env.generate (resolvedModel d) (fullPrompt d) (resolvedTemp d) = .ok t)
    (ht : env.tts t = .error ve) :
    handle_send_message env sid d =
      [⟨"receive_message",
        [("response", t), ("status", "success"), ("voice_error", ve)],
        some sid⟩] ∧
    ([("response", t), ("status", "success"), ("voice_error", ve)].lookup
      "audio") = (none : Option String) := by
  refine ⟨?_, rfl⟩
  simp [handle_send_message, hg, resolvedVoice, hv, ha, text_to_speech, ht]

/-- C6 witness: the theorem applied to `envSynthFail` (completion returns
`"hello"`, synthesis raises `"synthesis failed"`) and the voice-enabled
request `voiceReq`. -/
theorem voice_failure_keeps_text_witness :
    handle_send_message envSynthFail "sid1" voiceReq =
      [⟨"receive_message",
        [("response", "hello"), ("status", "success"),
         ("voice_error", "synthesis failed")],
        some "sid1"⟩] ∧
    ([("response", "hello"), ("status", "success"),
      ("voice_error", "synthesis failed")].lookup "audio") =
      (none : Option String) :=
  voice_failure_keeps_text envSynthFail "sid1" voiceReq "hello"
    "synthesis failed" rfl rfl rfl rfl

/-- C7 counterexample: with `enable_voice: true` but the text-to-speech
library not installed (`TEXTTOSPEECH_AVAILABLE = False`), the guard
`if enable_voice and TEXTTOSPEECH_AVAILABLE:` is false, so the voice request
is silently dropped: the emitted response carries neither a `voice_error`
nor any other field surfacing the capability-unavailable condition. -/
theorem tts_unavailable_counterexample :
    handle_send_message envNoTTS "sid2" voiceReq =
      [⟨"receive_message", [("response", "hello"), ("status", "success")],
        some "sid2"⟩] ∧
    ([("response", "hello"), ("status", "success")].lookup "voice_error") =
      (none : Option String) ∧
    ([("response", "hello"), ("status", "success")].lookup "audio") =
      (none : Option String) :=
  ⟨rfl, rfl, rfl⟩

/-- C7 amended: when the synthesis library is not installed
(`TEXTTOSPEECH_AVAILABLE = False`), a voice-enabled request is silently
skipped — the successful text response is delivered unchanged with no
`voice_error` and no `audio` field, so the unavailability is not surfaced;
only a runtime synthesis failure with the library installed (e.g. missing
credentials) is surfaced as `voice_error` (theorem
`voice_failure_keeps_text`).  The primary text response is never aborted. -/
theorem tts_unavailable_silently_skipped (env : Env) (sid : String)
    (d : SendMessageData) (t : String)
    (_hv : d.enable_voice = some true) (ha : env.ttsAvailable = false)
    (hg : env.generate (resolvedModel d) (fullPrompt d) (resolvedTemp d) = .ok t) :
    handle_send_message env sid d =
      [⟨"receive_message", [("response", t), ("status", "success")],
        some sid⟩] ∧
    ([("response", t), ("status", "success")].lookup "voice_error") =
      (none : Option String) ∧
    ([("response", t), ("status", "success")].lookup "audio") =
      (none : Option String) := by
  refine ⟨?_, rfl, rfl⟩
  simp [handle_send_message, hg, ha]

/-- C7 witness: the amended theorem applied to `envNoTTS` and `voiceReq` at
the concrete sid `"sid3"`. -/
theorem tts_unavailable_silently_skipped_witness :
    handle_send_message envNoTTS "sid3" voiceReq =
      [⟨"receive_message", [("response", "hello"), ("status", "success")],
        some "sid3"⟩] ∧
    ([("response", "hello"), ("status", "success")].lookup "voice_error") =
      (none : Option String) ∧
    ([("response", "hello"), ("status", "success")].lookup "audio") =
      (none : Option String) :=
  tts_unavailable_silently_skipped envNoTTS "sid3" voiceReq "hello" rfl rfl rfl

/-- C8: none of the three `socketio.emit` calls of `handle_screen_sharing`
passes `room=`, so every outbound event it produces —
`screen_sharing_response` on success, `screen_sharing_status` when the image
payload is absent, `error` on failure — is broadcast to every connected
client instead of being addressed to the originating connection, even
though the handler's own log lines say "Emitting screen analysis to client
{request.sid}".  Shown in general and evaluated at the three concrete
failing inputs. -/
theorem screen_sharing_broadcasts :
    (∀ (env : Env) (sid : String) (d : ScreenSharingData),
      (handle_screen_sharing env sid d).all (fun e => e.room == none) = true) ∧
    handle_screen_sharing envSynthFail "sidA" ⟨some "img", none⟩ =
      [⟨"screen_sharing_response", [("response", "analysis")], none⟩] ∧
    handle_screen_sharing envSynthFail "sidA" ⟨none, none⟩ =
      [⟨"screen_sharing_status",
        [("status", "Screen sharing started, waiting for data")], none⟩] ∧
    handle_screen_sharing envVisionFail "sidA" ⟨some "img", none⟩ =
      [⟨"error", [("error", "upstream failure")], none⟩] := by
  refine ⟨?_, rfl, rfl, rfl⟩
  intro env sid d
  unfold handle_screen_sharing
  cases hs : truthyStr d.screen_data with
  | false => simp
  | true =>
      simp only [if_true]
      cases env.generateVision (d.model.getD "gemini-pro-vision")
        screenInstruction (d.screen_data.getD "") <;> rfl

/-- C9 counterexample: for the request
`{message: "hi", model: "", temperature: 0.7}` the `model` key is present,
so `data.get('model', 'gemini-pro')` returns `""`, not the configured
default.  With an environment whose completion oracle echoes the model name
and the prompt it received, the emitted response shows the completion
client was invoked with model `""` (the text before the `|`) and prompt
`"hi"`, not with `"gemini-pro"`. -/
theorem empty_model_counterexample :
    resolvedModel emptyModelReq = "" ∧
    resolvedModel emptyModelReq ≠ "gemini-pro" ∧
    handle_send_message envEcho "sid4" emptyModelReq =
      [⟨"receive_message", [("response", "|hi"), ("status", "success")],
        some "sid4"⟩] := by
  refine ⟨rfl, by decide, rfl⟩

/-- C9 amended: for the request `{message: "hi", model: "", temperature:
0.7}`, the model name resolves to the empty string — the default
`"gemini-pro"` applies only when the `model` key is absent — the completion
client is invoked with prompt `"hi"` (no system-instruction prefix) and
model name `""`, and the resulting `receive_message` (or, on completion
failure, `error`) event is emitted only to the sender. -/
theorem empty_model_passed_through (env : Env) (sid : String) :
    resolvedModel emptyModelReq = "" ∧
    fullPrompt emptyModelReq = "hi" ∧
    handle_send_message env sid emptyModelReq =
      (match env.generate "" "hi" (7 / 10) with
       | .ok t =>
          [⟨"receive_message", [("response", t), ("status", "success")],
            some sid⟩]
       | .error e =>
          [⟨"error", [("error", e), ("status", "error")], some sid⟩]) := by
  refine ⟨rfl, rfl, ?_⟩
  have hm : resolvedModel emptyModelReq = "" := rfl
  have hp : fullPrompt emptyModelReq = "hi" := rfl
  have htp : resolvedTemp emptyModelReq = 7 / 10 := rfl
  have hv : resolvedVoice emptyModelReq = false := rfl
  unfold handle_send_message
  rw [hm, hp, htp]
  cases env.generate "" "hi" (7 / 10) with
  | ok t => simp [hv]
  | error e => rfl

/-- C10 counterexample: `switch_model` with the empty requested name and the
non-empty provider list `["", "models/gemini-2"]` does not succeed with the
first listed name — the first name containing `""` is `""` itself, which
`if not matched_model:` treats as falsy — so the code answers not-found
even though the provider list is non-empty. -/
theorem switch_empty_request_counterexample :
    switch_model (some "") (.ok ["", "models/gemini-2"]) =
      .notFound "Model  not found. Available models: , models/gemini-2..." ∧
    switch_model (some "") (.ok ["", "models/gemini-2"]) ≠ .success "" := by
  decide

/-- C10 amended: a `POST /api/switch_model` request whose `model` field is
the empty string matches the provider's first listed name (the empty string
is a substring of every name), and succeeds returning that first name
whenever it is non-empty; it fails with not-found when the provider list is
empty and also in the degenerate case where the first listed name is itself
the empty string. -/
theorem switch_empty_request_matches_head (names : List String) :
    (∀ h : names ≠ [], names.head h ≠ "" →
        switch_model (some "") (.ok names) = .success (names.head h)) ∧
    (names = [] →
        switch_model (some "") (.ok names) =
          .notFound (notFoundMessage "" names)) ∧
    (names.head? = some "" →
        switch_model (some "") (.ok names) =
          .notFound (notFoundMessage "" names)) := by
  refine ⟨?_, ?_, ?_⟩
  · intro h hne
    cases names with
    | nil => exact absurd rfl h
    | cons a t =>
        have hf : (a :: t).find? (fun n => strIn "" n) = some a :=
          find?_strIn_empty_eq_head? (a :: t)
        have hna : a ≠ "" := hne
        simp [switch_model, hf, hna]
  · rintro rfl
    rfl
  · intro hh
    cases names with
    | nil => simp at hh
    | cons a t =>
        have ha : a = "" := by simpa using hh
        subst ha
        have hf : ("" :: t).find? (fun n => strIn "" n) = some "" :=
          find?_strIn_empty_eq_head? ("" :: t)
        simp [switch_model, hf]

/-- C10 witness: the amended theorem's branches at concrete inputs — a
non-empty provider list with a non-empty first name succeeds with that
name, and the empty provider list yields not-found. -/
theorem switch_empty_request_matches_head_witness :
    switch_model (some "") (.ok ["models/gemini-2", "x"]) =
      .success "models/gemini-2" ∧
    switch_model (some "") (.ok ([] : List String)) =
      .notFound (notFoundMessage "" []) :=
  ⟨(switch_empty_request_matches_head ["models/gemini-2", "x"]).1
      (by decide) (by decide),
   (switch_empty_request_matches_head []).2.1 rfl⟩
